import Mathlib

/-!
Verification development for the spot-sdk example tools:
`python/examples/project_nav_man/object_record_commad_line.py` (an interactive
command-line interface driving a remote graph-recording session) and
`python/bosdyn-client/tests/cycle_power.py` (a small power-cycling script).

The Python code is shallowly embedded: pure fragments become Lean functions,
each remote service is a parameter describing its responses, and side effects
(prints, file writes, RPC submissions, sleeps) are collected in explicit event
or result lists.  Exceptions are modelled with `Except` or dedicated outcome
constructors.  External SDK calls (bosdyn client library, protobuf
serialization, SE3 pose arithmetic) are opaque per the published contracts and
enter the embedding as parameters or abstract byte lists.
-/

namespace Spot

/-- Helper for `pySplit`: walk the characters accumulating the current word,
emitting it at each whitespace run and at the end. -/
def pySplitAux : List Char → List Char → List String
  | [], acc => if acc.isEmpty then [] else [String.mk acc]
  | c :: cs, acc =>
      if c.isWhitespace then
        if acc.isEmpty then pySplitAux cs [] else String.mk acc :: pySplitAux cs []
      else pySplitAux cs (acc ++ [c])

/-- Python `str.split()` with no separator argument: split on runs of
whitespace, discarding empty pieces.  Used by the dispatcher loop
(`object_record_commad_line.py`, lines 667 and 677). -/
def pySplit (s : String) : List String :=
  pySplitAux s.data []

/-- The twelve handlers registered in `RecordingInterface._command_dictionary`
(`object_record_commad_line.py`, lines 75-88). -/
inductive Command
  | clearMap
  | startRec
  | stopRec
  | getRecordingStatus
  | createDefaultWaypoint
  | downloadFullGraph
  | listGraphWaypointAndEdgeIds
  | createNewEdge
  | createLoop
  | autoCloseLoopsPrompt
  | optimizeAnchoring
  | addObject
deriving DecidableEq

/-- The single-character command codes of `_command_dictionary`
(lines 75-88), in source order. -/
def commandDictionary : List (String × Command) :=
  [("0", Command.clearMap),
   ("1", Command.startRec),
   ("2", Command.stopRec),
   ("3", Command.getRecordingStatus),
   ("4", Command.createDefaultWaypoint),
   ("5", Command.downloadFullGraph),
   ("6", Command.listGraphWaypointAndEdgeIds),
   ("7", Command.createNewEdge),
   ("8", Command.createLoop),
   ("9", Command.autoCloseLoopsPrompt),
   ("a", Command.optimizeAnchoring),
   ("o", Command.addObject)]

/-- Dictionary lookup `self._command_dictionary[req_type]` guarded by the
membership test on line 672. -/
def lookupCommand (tok : String) : Option Command :=
  commandDictionary.lookup tok

/-- Outcome of running one handler on session state `σ`.  `ok` returns the new
state and printed lines; `exn` is a raised `Exception` instance (caught by the
loop, line 678); `sysExit` models a deliberate `exit(code)` call inside a
handler (`SystemExit` derives from `BaseException`, so `except Exception`
does not catch it). -/
inductive HandlerOutcome (σ : Type)
  | ok (s : σ) (out : List String)
  | exn (msg : String)
  | sysExit (code : Nat)

/-- Result of one iteration of the `run` loop body (lines 646-679).
`next` means the loop continues into the next iteration; `quit` is the
explicit break on the token q; `exited` is process termination from inside a
handler; `crash` is an exception raised by the loop body itself outside the
per-command try (the `tokens[0]` index on a blank line), which terminates the
loop.  The `invoked` component records each handler invocation together with
the argument tokens it received. -/
inductive BodyResult (σ : Type)
  | quit (s : σ)
  | next (s : σ) (output : List String) (invoked : List (Command × List String))
  | exited (code : Nat) (invoked : List (Command × List String))
  | crash (msg : String)
deriving DecidableEq

/-- One iteration of `RecordingInterface.run` (lines 663-679): split the input
line, break on q, look up the first token in the command dictionary, report
unknown tokens, and otherwise invoke the handler with the remaining tokens
inside a try/except that catches `Exception`. -/
def runBody {σ : Type} (handlers : Command → List String → σ → HandlerOutcome σ)
    (line : String) (s : σ) : BodyResult σ :=
  match pySplit line with
  | [] => BodyResult.crash "IndexError: list index out of range"
  | req :: rest =>
    if req = "q" then BodyResult.quit s
    else
      match lookupCommand req with
      | none => BodyResult.next s ["Request not in the known command dictionary."] []
      | some c =>
        match handlers c rest s with
        | HandlerOutcome.ok s' out => BodyResult.next s' out [(c, rest)]
        | HandlerOutcome.exn e => BodyResult.next s [e] [(c, rest)]
        | HandlerOutcome.sysExit code => BodyResult.exited code [(c, rest)]

/-! ### Stop recording (`_stop_recording`, lines 134-152) -/

/-- Response of `self._recording_client.stop_recording()`: success, the
transient `bosdyn.client.recording.NotReadyYetError`, or any other
exception. -/
inductive StopResponse
  | ok
  | notReadyYet
  | otherError (msg : String)
deriving DecidableEq

/-- Observable events of `_stop_recording`: a submission of the stop request
together with the response it got, a `time.sleep` of the given number of
seconds, and a printed message. -/
inductive StopEvent
  | call (resp : StopResponse)
  | sleep (seconds : Nat)
  | msg (s : String)
deriving DecidableEq

/-- `RecordingInterface._stop_recording` (lines 134-152): resubmit
`stop_recording` while the service raises `NotReadyYetError`, sleeping one
second between attempts and printing a cleanup notice on the first retry;
break on success or on any other exception.  The service is a function from
the attempt index to its response; `fuel` bounds the number of iterations
modelled, with `none` meaning the loop was still running when fuel ran out
(the Python loop is unbounded). -/
def stop_recording (svc : Nat → StopResponse) : Nat → Nat → Bool → Option (List StopEvent)
  | 0, _, _ => none
  | fuel + 1, i, firstIter =>
    match svc i with
    | StopResponse.ok =>
        some [StopEvent.call StopResponse.ok,
              StopEvent.msg "Successfully stopped recording a map."]
    | StopResponse.notReadyYet =>
        (stop_recording svc fuel (i + 1) false).map
          (fun t =>
            (if firstIter
             then [StopEvent.call StopResponse.notReadyYet,
                   StopEvent.msg "Cleaning up recording..."]
             else [StopEvent.call StopResponse.notReadyYet]) ++
            StopEvent.sleep 1 :: t)
    | StopResponse.otherError e =>
        some [StopEvent.call (StopResponse.otherError e),
              StopEvent.msg ("Stop recording failed: " ++ e)]

/-- A fake service that reports the transient not-ready condition on the first
`n` attempts and then succeeds. -/
def notReadyThenOk (n : Nat) : Nat → StopResponse :=
  fun i => if i < n then StopResponse.notReadyYet else StopResponse.ok

/-- The event trace `_stop_recording` produces against `notReadyThenOk n`
starting with `firstIter = b`. -/
def stopTraceAux : Nat → Bool → List StopEvent
  | 0, _ =>
      [StopEvent.call StopResponse.ok,
       StopEvent.msg "Successfully stopped recording a map."]
  | n + 1, b =>
      (if b
       then [StopEvent.call StopResponse.notReadyYet,
             StopEvent.msg "Cleaning up recording..."]
       else [StopEvent.call StopResponse.notReadyYet]) ++
      StopEvent.sleep 1 :: stopTraceAux n false

/-- Whether an event is a submission of the stop request. -/
def StopEvent.isCall : StopEvent → Bool
  | StopEvent.call _ => true
  | _ => false

/-- Whether an event is a sleep. -/
def StopEvent.isSleep : StopEvent → Bool
  | StopEvent.sleep _ => true
  | _ => false

/-- Whether an event is a submission answered with the transient not-ready
condition. -/
def StopEvent.isNotReadyCall : StopEvent → Bool
  | StopEvent.call StopResponse.notReadyYet => true
  | _ => false

/-- Number of stop-request submissions in a trace. -/
def countCalls (t : List StopEvent) : Nat :=
  (t.filter StopEvent.isCall).length

/-- Number of sleeps in a trace. -/
def countSleeps (t : List StopEvent) : Nat :=
  (t.filter StopEvent.isSleep).length

/-- Number of submissions answered with the transient not-ready condition. -/
def countNotReadyCalls (t : List StopEvent) : Nat :=
  (t.filter StopEvent.isNotReadyCall).length

/-! ### Data model: graphs, waypoints, edges -/

/-- An SE3 pose proto (`waypoint_tform_ko`, `from_tform_to`): position and
quaternion rotation, with rational coordinates standing for the doubles. -/
structure SE3 where
  px : ℚ
  py : ℚ
  pz : ℚ
  qw : ℚ
  qx : ℚ
  qy : ℚ
  qz : ℚ
deriving DecidableEq

/-- A `PickObjectInImage` proto as built on lines 477-481: the clicked pixel.
The camera fields (`transforms_snapshot_for_camera`,
`frame_name_image_sensor`, `camera_model`) come from the single captured
image and are constant across clicks, so they are omitted. -/
structure Grasp where
  pixelX : Int
  pixelY : Int
deriving DecidableEq

/-- Waypoint annotations as the code duck-types them: a human-readable `name`
(read on line 417) and a key-to-grasp mapping written by the subscripted
`CopyFrom` on line 483. -/
structure Annots where
  name : String
  objects : List (String × Grasp)
deriving DecidableEq

/-- A waypoint of `map_pb2.Graph`: unique id, annotations, snapshot id and
its pose `waypoint_tform_ko`. -/
structure Waypoint where
  id : String
  annots : Annots
  snapshot_id : String
  waypoint_tform_ko : SE3
deriving DecidableEq

/-- A `map_pb2.Edge` as the code reads and builds it (lines 219-229 and
288-291): endpoint waypoint ids, a snapshot id and the relative transform.
A freshly constructed edge leaves `snapshot_id` at the proto default, the
empty string. -/
structure Edge where
  from_waypoint : String
  to_waypoint : String
  snapshot_id : String
  from_tform_to : SE3
deriving DecidableEq

/-- A `map_pb2.Graph`: waypoint and edge lists. -/
structure Graph where
  waypoints : List Waypoint
  edges : List Edge
deriving DecidableEq

/-- Requests the embedded commands can submit to the remote services. -/
inductive Request
  | createEdge (e : Edge)
deriving DecidableEq

/-! ### graph_nav_util helpers (imported by the tool, not part of src/) -/

/-- Modelled from the spec: `graph_nav_util.update_waypoints_and_edges` is
imported on line 19 but its source is not under src/.  The spec describes its
relevant output as "the cached annotation-to-id map" used to resolve waypoint
references, so it is modelled as the map from each waypoint annotation name to
that waypoint id. -/
def update_waypoints_and_edges (g : Graph) : List (String × String) :=
  g.waypoints.map (fun w => (w.annots.name, w.id))

/-- Modelled from the spec: `graph_nav_util.find_unique_waypoint_id` (lines
269-272) is not under src/.  The spec says each reference is resolved
"against the cached annotation-to-id map or the id space directly", so a
reference that is an annotation name maps to the matching id and any other
reference is taken as an id literally. -/
def find_unique_waypoint_id (short : String) (nameToId : List (String × String)) : String :=
  match nameToId.lookup short with
  | some i => i
  | none => short

/-! ### Create edge and create loop (`_create_new_edge`, `_create_loop`) -/

/-- `RecordingInterface._get_waypoint` (lines 613-624): linear search of the
current graph for a waypoint with the given id, `none` when absent.  In the
flows below the current graph was just downloaded by
`_update_graph_waypoint_and_edge_ids`, so the re-download branch for a missing
cached graph never fires and the graph is passed directly. -/
def get_waypoint (g : Graph) (i : String) : Option Waypoint :=
  g.waypoints.find? (fun w => w.id == i)

/-- `RecordingInterface._get_transform` (lines 626-642) computes
`from_tf.mult(to_tf.inverse()).to_proto()` on the two poses.  The SE3 pose
arithmetic lives in `bosdyn.client.math_helpers`, an external SDK module, so
multiplication and inversion are parameters of the embedding. -/
def get_transform (mult : SE3 → SE3 → SE3) (inv : SE3 → SE3)
    (fromWp toWp : Waypoint) : SE3 :=
  mult fromWp.waypoint_tform_ko (inv toWp.waypoint_tform_ko)

/-- Rendering of the transform proto printed on line 293. -/
def se3Repr (t : SE3) : String :=
  "position " ++ toString t.px ++ " " ++ toString t.py ++ " " ++ toString t.pz ++
  " rotation " ++ toString t.qw ++ " " ++ toString t.qx ++ " " ++
  toString t.qy ++ " " ++ toString t.qz

/-- The message printed on line 274. -/
def creatingMsg (fid tid : String) : String :=
  "Creating edge from " ++ fid ++ " to " ++ tid ++ "."

/-- The message `_get_waypoint` prints on line 623 when the id is absent. -/
def notFoundMsg (i : String) : String :=
  "ERROR: Waypoint " ++ i ++ " not found in graph."

/-- `RecordingInterface._create_new_edge` (lines 260-296) on the freshly
downloaded graph `g`: demand exactly two reference tokens, resolve both,
return visibly when either waypoint is missing, and otherwise submit one
`create_edge` request carrying the transform computed from the two poses.
The result pairs the printed lines with the submitted requests (the not-found
message is printed inside `_get_waypoint`). -/
def create_new_edge (mult : SE3 → SE3 → SE3) (inv : SE3 → SE3)
    (g : Graph) (args : List String) : List String × List Request :=
  match args with
  | [a, b] =>
    let fid := find_unique_waypoint_id a (update_waypoints_and_edges g)
    let tid := find_unique_waypoint_id b (update_waypoints_and_edges g)
    match get_waypoint g fid with
    | none => ([creatingMsg fid tid, notFoundMsg fid], [])
    | some fromWp =>
      match get_waypoint g tid with
      | none => ([creatingMsg fid tid, notFoundMsg tid], [])
      | some toWp =>
        let t := get_transform mult inv fromWp toWp
        ([creatingMsg fid tid, "edge transform = " ++ se3Repr t],
         [Request.createEdge
            { from_waypoint := fid, to_waypoint := tid, snapshot_id := "",
              from_tform_to := t }])
  | _ => (["ERROR: Specify the two waypoints to connect (short code or annotation)."], [])

/-- The id a waypoint reference resolves to against graph `g`: shorthand for
the resolution pipeline of lines 267-272. -/
def resolvedId (g : Graph) (ref : String) : String :=
  find_unique_waypoint_id ref (update_waypoints_and_edges g)

/-- `RecordingInterface._create_loop` (lines 298-312) on the freshly
downloaded graph `g`: when the graph has fewer than two waypoints, line 304
calls `self._add_message(...)` with the descriptive refusal text as its
argument — but no `_add_message` is defined anywhere on `RecordingInterface`
(its only superclass is `object`, and the name occurs nowhere else in the
source), so the attribute lookup raises `AttributeError` before anything is
printed; the Python quoting around the class and attribute names in the
interpreter message is elided here.  Otherwise connect the chronologically
last waypoint to the first via `_create_new_edge`.  `sortChrono` stands for
`graph_nav_util.sort_waypoints_chrono` (line 309), whose source is not under
src/; it is a parameter returning the chronologically sorted waypoint ids.
Indexing an empty sorted list would also raise, modelled as
`Except.error`. -/
def create_loop (mult : SE3 → SE3 → SE3) (inv : SE3 → SE3)
    (sortChrono : Graph → List String) (g : Graph) :
    Except String (List String × List Request) :=
  if g.waypoints.length < 2 then
    Except.error
      "AttributeError: RecordingInterface object has no attribute _add_message"
  else
    match (sortChrono g).getLast?, (sortChrono g).head? with
    | some lastId, some firstId =>
        Except.ok (create_new_edge mult inv g [lastId, firstId])
    | _, _ => Except.error "IndexError: list index out of range"

/-! ### Graph and snapshot downloads (`_download_full_graph` and friends) -/

/-- A waypoint snapshot as returned by
`download_waypoint_snapshot`; protobuf serialization is external, so the
snapshot is identified with its `SerializeToString()` bytes. -/
structure WaypointSnapshot where
  serialized : List Nat
deriving DecidableEq

/-- An edge snapshot as returned by `download_edge_snapshot`, likewise
identified with its serialized bytes. -/
structure EdgeSnapshot where
  serialized : List Nat
deriving DecidableEq

/-- Observable events of the download commands: directory creation and file
writes of `_write_bytes`, snapshot download requests, and prints. -/
inductive Event
  | makedirs (path : String)
  | write (path : String) (data : List Nat)
  | rpcDownloadWaypointSnapshot (i : String)
  | rpcDownloadEdgeSnapshot (i : String)
  | info (s : String)
deriving DecidableEq

/-- `RecordingInterface._write_bytes` (lines 235-240): create the directory
and write the data to `filepath + filename`. -/
def write_bytes (filepath filename : String) (data : List Nat) : List Event :=
  [Event.makedirs filepath, Event.write (filepath ++ filename) data]

/-- Loop body of `_download_and_write_waypoint_snapshots` (lines 196-213):
skip waypoints with an empty snapshot id, request each remaining snapshot,
print and continue on a failed download, and otherwise write the serialized
bytes under the `waypoint_snapshots` directory.  `total` is the fixed
`len(waypoints)` used in the progress print and `n` the running count of
successful downloads. -/
def downloadWaypointSnapshotsAux (dl : String)
    (svc : String → Except Unit WaypointSnapshot) :
    List Waypoint → Nat → Nat → List Event
  | [], _, _ => []
  | w :: ws, total, n =>
    if w.snapshot_id = "" then
      downloadWaypointSnapshotsAux dl svc ws total n
    else
      Event.rpcDownloadWaypointSnapshot w.snapshot_id ::
      match svc w.snapshot_id with
      | Except.error _ =>
          Event.info ("Failed to download waypoint snapshot: " ++ w.snapshot_id) ::
          downloadWaypointSnapshotsAux dl svc ws total n
      | Except.ok snap =>
          write_bytes (dl ++ "/waypoint_snapshots") ("/" ++ w.snapshot_id)
              snap.serialized ++
          Event.info ("Downloaded " ++ toString (n + 1) ++ " of the total " ++
              toString total ++ " waypoint snapshots.") ::
          downloadWaypointSnapshotsAux dl svc ws total (n + 1)

/-- `RecordingInterface._download_and_write_waypoint_snapshots` (lines
196-213), entered with a zero success counter. -/
def download_and_write_waypoint_snapshots (dl : String)
    (svc : String → Except Unit WaypointSnapshot) (ws : List Waypoint) :
    List Event :=
  downloadWaypointSnapshotsAux dl svc ws ws.length 0

/-- Loop body of `_download_and_write_edge_snapshots` (lines 215-233):
analogous to the waypoint version, except that the denominator of the
progress print is the running count `ntd` of edges with a snapshot id seen so
far. -/
def downloadEdgeSnapshotsAux (dl : String)
    (esvc : String → Except Unit EdgeSnapshot) :
    List Edge → Nat → Nat → List Event
  | [], _, _ => []
  | e :: es, ntd, n =>
    if e.snapshot_id = "" then
      downloadEdgeSnapshotsAux dl esvc es ntd n
    else
      Event.rpcDownloadEdgeSnapshot e.snapshot_id ::
      match esvc e.snapshot_id with
      | Except.error _ =>
          Event.info ("Failed to download edge snapshot: " ++ e.snapshot_id) ::
          downloadEdgeSnapshotsAux dl esvc es (ntd + 1) n
      | Except.ok snap =>
          write_bytes (dl ++ "/edge_snapshots") ("/" ++ e.snapshot_id)
              snap.serialized ++
          Event.info ("Downloaded " ++ toString (n + 1) ++ " of the total " ++
              toString (ntd + 1) ++ " edge snapshots.") ::
          downloadEdgeSnapshotsAux dl esvc es (ntd + 1) (n + 1)

/-- `RecordingInterface._download_and_write_edge_snapshots` (lines 215-233),
entered with both counters at zero. -/
def download_and_write_edge_snapshots (dl : String)
    (esvc : String → Except Unit EdgeSnapshot) (es : List Edge) : List Event :=
  downloadEdgeSnapshotsAux dl esvc es 0 0

/-- `RecordingInterface._download_full_graph` (lines 178-189): fetch the
graph; when the fetch yields nothing, report and return; otherwise write the
serialized graph (`_write_full_graph`, lines 191-194), print the summary and
download the waypoint and edge snapshots.  `graphResult` is the
`download_graph()` response and `serializeGraph` stands for the external
protobuf `SerializeToString`. -/
def download_full_graph (dl : String) (serializeGraph : Graph → List Nat)
    (graphResult : Option Graph)
    (wsvc : String → Except Unit WaypointSnapshot)
    (esvc : String → Except Unit EdgeSnapshot) : List Event :=
  match graphResult with
  | none => [Event.info "Failed to download the graph."]
  | some g =>
      write_bytes dl "/graph" (serializeGraph g) ++
      Event.info ("Graph downloaded with " ++ toString g.waypoints.length ++
          " waypoints and " ++ toString g.edges.length ++ " edges") ::
      (download_and_write_waypoint_snapshots dl wsvc g.waypoints ++
       download_and_write_edge_snapshots dl esvc g.edges)

/-- The file writes of an event trace, as path-content pairs. -/
def writesOf (evs : List Event) : List (String × List Nat) :=
  evs.filterMap (fun e =>
    match e with
    | Event.write p d => some (p, d)
    | _ => none)

/-- The snapshot download requests of an event trace. -/
def rpcsOf (evs : List Event) : List String :=
  evs.filterMap (fun e =>
    match e with
    | Event.rpcDownloadWaypointSnapshot i => some i
    | Event.rpcDownloadEdgeSnapshot i => some i
    | _ => none)

/-! ### Map processing (`_auto_close_loops`, `_optimize_anchoring`) -/

/-- Status enum of the map-processing responses. -/
inductive ProcStatus
  | statusOk
  | statusError
deriving DecidableEq

/-- A `ProcessTopologyResponse` as the caller reads it: the status carried by
the proto and the edges of `new_subgraph`. -/
structure TopologyResponse where
  status : ProcStatus
  new_subgraph_edges : List Edge
deriving DecidableEq

/-- A `ProcessAnchoringResponse` as the caller reads it: status and the
iteration count. -/
structure AnchoringResponse where
  status : ProcStatus
  iteration : Nat
deriving DecidableEq

/-- `RecordingInterface._auto_close_loops` (lines 343-350): one synchronous
`process_topology` call whose response is reported by printing the count of
new edges.  The Python body reads only `response.new_subgraph.edges`. -/
def auto_close_loops (response : TopologyResponse) : List String :=
  ["Created " ++ toString response.new_subgraph_edges.length ++ " new edge(s)."]

/-- Text rendering of `"Error optimizing \x7b\x7d".format(response)`; the
protobuf string form is external, modelled as a field dump. -/
def anchoringResponseRepr (r : AnchoringResponse) : String :=
  (match r.status with
   | ProcStatus.statusOk => "status: STATUS_OK"
   | ProcStatus.statusError => "status: STATUS_ERROR") ++
  " iteration: " ++ toString r.iteration

/-- `RecordingInterface._optimize_anchoring` (lines 352-360): one synchronous
`process_anchoring` call; on `STATUS_OK` print the iteration count, otherwise
print the error with the whole response. -/
def optimize_anchoring (response : AnchoringResponse) : List String :=
  if response.status = ProcStatus.statusOk then
    ["Optimized anchoring after " ++ toString response.iteration ++ " iteration(s)."]
  else
    ["Error optimizing " ++ anchoringResponseRepr response]

/-! ### Entry points and exit codes -/

/-- Outcome of `power_client.power_command` in `cycle_power.py` (lines 22-25):
success, the `LeaseUseError` the script catches, or another exception. -/
inductive PowerCmdOutcome
  | ok
  | leaseUseError (msg : String)
  | otherError (msg : String)
deriving DecidableEq

/-- Outcome of `power_client.power_command_feedback` (lines 27-30): success,
the `InvalidRequestError` the script catches, or another exception. -/
inductive FeedbackOutcome
  | ok
  | invalidRequestError (msg : String)
  | otherError (msg : String)
deriving DecidableEq

/-- One run of the external world as `cycle_power.main` sees it. -/
structure CyclePowerEnv where
  authOk : Bool
  powerCmd : PowerCmdOutcome
  feedback : FeedbackOutcome

/-- `cycle_power.py main` (lines 9-30): authenticate (an exception there
propagates), issue `power_command` catching only `LeaseUseError`, issue
`power_command_feedback` catching only `InvalidRequestError`.  The function
body has no return statement, so a completed run returns Python `None`,
modelled as `Option.none`; `some b` would be a `return b`. -/
def cycle_power_main (env : CyclePowerEnv) : Except String (Option Bool) :=
  if env.authOk then
    match env.powerCmd with
    | PowerCmdOutcome.otherError e => Except.error e
    | _ =>
      match env.feedback with
      | FeedbackOutcome.otherError e => Except.error e
      | _ => Except.ok none
  else
    Except.error "authentication failure"

/-- `object_record_commad_line.py main` (lines 682-724): authentication
happens outside any try block (line 702), so its failure propagates; the
`run()` loop is wrapped in a try/except returning `True` on completion and
`False` on any exception (lines 718-724). -/
def record_main (authOk : Bool) (runOutcome : Except String Unit) :
    Except String (Option Bool) :=
  if authOk then
    match runOutcome with
    | Except.ok _ => Except.ok (some true)
    | Except.error _ => Except.ok (some false)
  else
    Except.error "authentication failure"

/-- Python truthiness of the value returned by `main`: `None` is falsy. -/
def pyTruthy : Option Bool → Bool
  | none => false
  | some b => b

/-- Process exit code of the `if not main(...): sys.exit(1)` guard both
scripts use (`cycle_power.py` lines 33-35, `object_record_commad_line.py`
lines 727-729): an uncaught exception makes the interpreter exit with code 1,
a falsy return triggers `sys.exit(1)`, and a truthy return falls off the end
of the script with exit code 0. -/
def scriptExitCode (result : Except String (Option Bool)) : Nat :=
  match result with
  | Except.error _ => 1
  | Except.ok v => if pyTruthy v then 0 else 1

/-! ### Constructor download path (`RecordingInterface.__init__`, lines 40-65) -/

/-- Robot interactions of `__init__` before and after the download-path
computation: the forced `time_sync.wait_for_sync()` on line 44 and the three
`ensure_client` setups on lines 53-65. -/
inductive InitEvent
  | waitForSync
  | ensureClient (service : String)
deriving DecidableEq

/-- Python `s[-1]`: the last character, raising `IndexError` on the empty
string. -/
def pyLastChar (s : String) : Except String Char :=
  match s.data.getLast? with
  | none => Except.error "IndexError: string index out of range"
  | some c => Except.ok c

/-- `RecordingInterface.__init__` (lines 40-65) restricted to its observable
effects: wait for time sync, compute `_download_filepath` by appending
`downloaded_graph` (prefixed with a slash unless the argument already ends in
one, lines 47-50), then set up the recording, graph-nav and map-processing
clients.  Returns the interactions performed together with either the stored
path or the exception that aborted construction. -/
def recording_interface_init (downloadFilepath : String) :
    List InitEvent × Except String String :=
  match pyLastChar downloadFilepath with
  | Except.error e => ([InitEvent.waitForSync], Except.error e)
  | Except.ok c =>
      ([InitEvent.waitForSync,
        InitEvent.ensureClient "recording",
        InitEvent.ensureClient "graph-nav",
        InitEvent.ensureClient "map-processing"],
       Except.ok (if c = '/'
                  then downloadFilepath ++ "downloaded_graph"
                  else downloadFilepath ++ "/downloaded_graph"))

/-- The claimed shape of the stored download path: the input with one
trailing slash removed if present, then exactly one slash and
`downloaded_graph`.  This definition follows the words of claim C9, for
comparison with `recording_interface_init`. -/
def claimedDownloadPath (p : String) : String :=
  (if p.data.getLast? = some '/' then String.mk p.data.dropLast else p) ++
  "/downloaded_graph"

/-! ### Object capture (`_capt_object`, lines 409-489) -/

/-- A click recorded by `cv_mouse_callback` (line 376): the Python dict
with string keys coords (the pixel pair) and name (the object name). -/
structure Click where
  coords : Int × Int
  name : String
deriving DecidableEq

/-- Python integer subscription `point[k]` on the click dict: the dict holds
only the string keys coords and name, so every integer key raises
`KeyError` (lines 461-462 subscript with 0 and 1). -/
def Click.getItemInt (_c : Click) (k : Int) : Except String Int :=
  Except.error ("KeyError: " ++ toString k)

/-- The subscripted `CopyFrom` on line 483: store the grasp under the object
name, replacing any previous entry for that name. -/
def Annots.setObject (a : Annots) (key : String) (g : Grasp) : Annots :=
  { a with objects := a.objects.filter (fun p => p.1 ≠ key) ++ [(key, g)] }

/-- The inner loop on lines 469-483: for every recorded click, build the
grasp from its coordinates and attach it to the current waypoint annotations
under the object name. -/
def attachClicks (a : Annots) : List Click → Annots
  | [] => a
  | c :: rest =>
      attachClicks (a.setObject c.name { pixelX := c.coords.1, pixelY := c.coords.2 }) rest

/-- The outer loop on lines 460-483: for every click, log its position by
integer-subscripting the click dict (which raises `KeyError`), rebuild the
pick vector the same way, then run the inner attachment loop over all
clicks. -/
def captOuterLoop (clicks : List Click) (a : Annots) :
    List Click → Except String Annots
  | [] => Except.ok a
  | point :: rest =>
      match point.getItemInt 0 with
      | Except.error e => Except.error e
      | Except.ok _ =>
        match point.getItemInt 1 with
        | Except.error e => Except.error e
        | Except.ok _ => captOuterLoop clicks (attachClicks a clicks) rest

/-- Apply `f` to the last element of a list, the leaked Python loop variable
`waypoint` after `for waypoint in graph.waypoints`. -/
def mapLast {α : Type} (f : α → α) : List α → List α
  | [] => []
  | [x] => [f x]
  | x :: y :: rest => x :: mapLast f (y :: rest)

/-- The annotations of the leaked loop variable `waypoint` after
`for waypoint in graph.waypoints` (line 416): those of the last waypoint,
with a default proto for the vacuous empty-graph case (where the attachment
code never touches the variable). -/
def lastAnnots (g : Graph) : Annots :=
  ((g.waypoints.getLast?).map Waypoint.annots).getD { name := "", objects := [] }

/-- `RecordingInterface._capt_object` (lines 409-489) with the image capture
and GUI loop abstracted into the resulting `clicks` list: refuse a missing
waypoint name; compute `curr_waypoint` from the name (it is never read
afterwards); run the attachment loops, whose target is the leaked loop
variable `waypoint`, the last waypoint of the downloaded graph; and upload
the resulting graph.  Returns the prints and the uploaded graph, or the
exception escaping the handler. -/
def capt_object (waypointName : Option String) (g : Graph) (clicks : List Click) :
    Except String (List String × Option Graph) :=
  match waypointName with
  | none => Except.ok (["waypoint name not input"], none)
  | some name =>
    let _currWaypoint :=
      (g.waypoints.filter (fun w => w.annots.name = name)).getLast?
    let a0 := lastAnnots g
    match captOuterLoop clicks a0 clicks with
    | Except.error e => Except.error e
    | Except.ok a1 =>
        let g1 : Graph :=
          { g with waypoints := mapLast (fun w => { w with annots := a1 }) g.waypoints }
        Except.ok (["Successfully added objects."], some g1)

/-! ### Concrete sample data used by witnesses and counterexamples -/

/-- The identity pose, a convenient concrete `SE3` value. -/
def se3id : SE3 :=
  { px := 0, py := 0, pz := 0, qw := 1, qx := 0, qy := 0, qz := 0 }

/-- A concrete stand-in for the external SE3 multiplication. -/
def multFst : SE3 → SE3 → SE3 := fun x _ => x

/-- A concrete stand-in for the external SE3 inversion. -/
def invId : SE3 → SE3 := fun x => x

/-- Sample waypoint with id A, annotation name one and snapshot id sA. -/
def wpA : Waypoint :=
  { id := "A", annots := { name := "one", objects := [] }, snapshot_id := "sA",
    waypoint_tform_ko := se3id }

/-- Sample waypoint with id B, annotation name two and snapshot id sB. -/
def wpB : Waypoint :=
  { id := "B", annots := { name := "two", objects := [] }, snapshot_id := "sB",
    waypoint_tform_ko := se3id }

/-- Sample two-waypoint graph. -/
def gAB : Graph := { waypoints := [wpA, wpB], edges := [] }

/-- Sample one-waypoint graph. -/
def gA : Graph := { waypoints := [wpA], edges := [] }

/-- A chronological sort stand-in for witnesses that never reach it. -/
def sortNone : Graph → List String := fun _ => []

/-- Handler family on `Nat` state that succeeds, bumps the state and prints
one line; used to witness the dispatch theorem. -/
def hOk : Command → List String → Nat → HandlerOutcome Nat :=
  fun _ _ s => HandlerOutcome.ok (s + 1) ["ran"]

/-- Handler family on `Nat` state that raises; used to witness the dispatch
theorem. -/
def hExn : Command → List String → Nat → HandlerOutcome Nat :=
  fun _ _ _ => HandlerOutcome.exn "boom"

/-- A stop-recording service that fails non-transiently at once. -/
def errStopSvc : Nat → StopResponse := fun _ => StopResponse.otherError "boom"

/-- A snapshot service returning the same one-byte snapshot for every id. -/
def svcSnap : String → Except Unit WaypointSnapshot := fun _ => Except.ok { serialized := [7] }

/-- The snapshot each waypoint is expected to yield under `svcSnap`. -/
def snapConst : Waypoint → WaypointSnapshot := fun _ => { serialized := [7] }

/-- A sample click on pixel 1,2 named cup. -/
def clickCup : Click := { coords := (1, 2), name := "cup" }

/-! ## Theorems -/

/-- C1: for every input line whose whitespace split yields a command token
`req` and argument tokens `rest`, the dispatcher loop body invokes exactly the
handler the command dictionary maps `req` to, exactly once, with `rest`; an
exception the handler raises is caught, reported as the printed output, and
the loop continues with the state unchanged; an unknown token (other than the
quit token) produces the user-visible message, invokes no handler, leaves the
session state unchanged, and the loop continues. -/
theorem dispatch_per_line {σ : Type} (handlers : Command → List String → σ → HandlerOutcome σ)
    (line : String) (s s' : σ) (out : List String) (e : String)
    (req : String) (rest : List String) (c : Command)
    (hsplit : pySplit line = req :: rest) :
    (lookupCommand req = some c → handlers c rest s = HandlerOutcome.ok s' out →
      runBody handlers line s = BodyResult.next s' out [(c, rest)]) ∧
    (lookupCommand req = some c → handlers c rest s = HandlerOutcome.exn e →
      runBody handlers line s = BodyResult.next s [e] [(c, rest)]) ∧
    (lookupCommand req = none → req ≠ "q" →
      runBody handlers line s =
        BodyResult.next s ["Request not in the known command dictionary."] []) := by
  have hq : lookupCommand "q" = none := by decide
  refine ⟨?_, ?_, ?_⟩
  · intro h1 h2
    have hne : req ≠ "q" := by
      intro h
      rw [h, hq] at h1
      exact Option.noConfusion h1
    simp [runBody, hsplit, hne, h1, h2]
  · intro h1 h2
    have hne : req ≠ "q" := by
      intro h
      rw [h, hq] at h1
      exact Option.noConfusion h1
    simp [runBody, hsplit, hne, h1, h2]
  · intro h1 h2
    simp [runBody, hsplit, h1, h2]

/-- Witness for C1: concrete known-command dispatch (success and raised
exception) and a concrete unknown token, on state `0 : Nat`. -/
theorem dispatch_per_line_witness :
    runBody hOk "7 wp1 wp2" 0 =
      BodyResult.next 1 ["ran"] [(Command.createNewEdge, ["wp1", "wp2"])] ∧
    runBody hExn "7 wp1 wp2" 0 =
      BodyResult.next 0 ["boom"] [(Command.createNewEdge, ["wp1", "wp2"])] ∧
    runBody hOk "z" 0 =
      BodyResult.next 0 ["Request not in the known command dictionary."] [] := by
  refine ⟨?_, ?_, ?_⟩
  · exact (dispatch_per_line hOk "7 wp1 wp2" 0 1 ["ran"] "e" "7" ["wp1", "wp2"]
      Command.createNewEdge (by decide)).1 (by decide) rfl
  · exact (dispatch_per_line hExn "7 wp1 wp2" 0 1 ["ran"] "boom" "7" ["wp1", "wp2"]
      Command.createNewEdge (by decide)).2.1 (by decide) rfl
  · exact (dispatch_per_line hOk "z" 0 1 ["ran"] "e" "z" []
      Command.clearMap (by decide)).2.2 (by decide) (by decide)

/-- Against a service that is not ready for the next `n` attempts and then
succeeds, the stop loop produces exactly the trace `stopTraceAux n b`,
provided the fuel covers the `n + 1` iterations the Python loop runs. -/
theorem stop_recording_notReadyThenOk (N : Nat) :
    ∀ n fuel i b, i + n = N → n + 1 ≤ fuel →
      stop_recording (notReadyThenOk N) fuel i b = some (stopTraceAux n b) := by
  intro n
  induction n with
  | zero =>
    intro fuel i b hi hf
    match fuel, hf with
    | f + 1, _ =>
      have : ¬ i < N := by omega
      simp [stop_recording, notReadyThenOk, this, stopTraceAux]
  | succ n ih =>
    intro fuel i b hi hf
    match fuel, hf with
    | f + 1, hf =>
      have hlt : i < N := by omega
      have hrec := ih f (i + 1) false (by omega) (by omega)
      simp [stop_recording, notReadyThenOk, hlt, hrec, stopTraceAux]

/-- The expected trace submits the stop request `n + 1` times in all. -/
theorem countCalls_stopTraceAux : ∀ (n : Nat) (b : Bool),
    countCalls (stopTraceAux n b) = n + 1 := by
  intro n
  induction n with
  | zero =>
    intro b
    rfl
  | succ n ih =>
    intro b
    cases b <;>
      simp [stopTraceAux, countCalls, StopEvent.isCall, List.filter_append] <;>
      simpa [countCalls] using ih false

/-- The expected trace sleeps exactly `n` times, one second each. -/
theorem sleeps_stopTraceAux : ∀ (n : Nat) (b : Bool),
    (stopTraceAux n b).filter StopEvent.isSleep =
      List.replicate n (StopEvent.sleep 1) := by
  intro n
  induction n with
  | zero =>
    intro b
    rfl
  | succ n ih =>
    intro b
    cases b <;>
      simp [stopTraceAux, StopEvent.isSleep, List.filter_append, List.replicate] <;>
      simpa using ih false

/-- In every terminating run of the stop loop, each sleep (hence each retry)
is matched with a submission that got the transient not-ready answer: only
transient not-ready conditions trigger a retry. -/
theorem stop_recording_sleeps_eq_notReady (svc : Nat → StopResponse) :
    ∀ fuel i b t, stop_recording svc fuel i b = some t →
      countSleeps t = countNotReadyCalls t := by
  intro fuel
  induction fuel with
  | zero =>
    intro i b t h
    simp [stop_recording] at h
  | succ f ih =>
    intro i b t h
    rw [stop_recording] at h
    cases hsvc : svc i with
    | ok =>
      rw [hsvc] at h
      rw [Option.some_inj] at h
      subst h
      rfl
    | notReadyYet =>
      rw [hsvc] at h
      cases hrec : stop_recording svc f (i + 1) false with
      | none =>
        rw [hrec] at h
        simp at h
      | some t' =>
        rw [hrec] at h
        replace h := Option.some.inj h
        subst h
        have ht' := ih (i + 1) false t' hrec
        cases b <;>
          simp [countSleeps, countNotReadyCalls, List.filter_append,
            StopEvent.isSleep, StopEvent.isNotReadyCall] <;>
          simpa [countSleeps, countNotReadyCalls] using ht'
    | otherError e =>
      rw [hsvc] at h
      rw [Option.some_inj] at h
      subst h
      rfl

/-- C2: against a service that reports the transient not-ready condition on
exactly the first `N` attempts and then succeeds, the stop-recording loop
terminates with exactly `N + 1` submissions (the initial one plus `N`
resubmissions) separated by `N` one-second sleeps; against a service whose
first answer is a non-transient error it terminates immediately after that
single submission with no sleep; and in every terminating run the number of
sleeps equals the number of transient not-ready answers, so only those
trigger a retry. -/
theorem stop_recording_retry (N fuel : Nat) (svc : Nat → StopResponse) (e : String)
    (t : List StopEvent) (hfuel : N + 1 ≤ fuel) :
    stop_recording (notReadyThenOk N) fuel 0 true = some (stopTraceAux N true) ∧
    countCalls (stopTraceAux N true) = N + 1 ∧
    (stopTraceAux N true).filter StopEvent.isSleep =
      List.replicate N (StopEvent.sleep 1) ∧
    (svc 0 = StopResponse.otherError e →
      stop_recording svc fuel 0 true =
        some [StopEvent.call (StopResponse.otherError e),
              StopEvent.msg ("Stop recording failed: " ++ e)]) ∧
    (stop_recording svc fuel 0 true = some t →
      countSleeps t = countNotReadyCalls t) := by
  refine ⟨stop_recording_notReadyThenOk N N fuel 0 true (by omega) hfuel,
          countCalls_stopTraceAux N true, sleeps_stopTraceAux N true, ?_, ?_⟩
  · intro hsvc
    match fuel, hfuel with
    | f + 1, _ =>
      rw [stop_recording, hsvc]
  · exact stop_recording_sleeps_eq_notReady svc fuel 0 true t

/-- Witness for C2: the fake service that is not ready twice and then
succeeds yields exactly two retries with one-second sleeps, and a service
failing non-transiently at once stops after a single submission. -/
theorem stop_recording_retry_witness :
    stop_recording (notReadyThenOk 2) 3 0 true = some (stopTraceAux 2 true) ∧
    countCalls (stopTraceAux 2 true) = 3 ∧
    (stopTraceAux 2 true).filter StopEvent.isSleep =
      List.replicate 2 (StopEvent.sleep 1) ∧
    stop_recording errStopSvc 3 0 true =
      some [StopEvent.call (StopResponse.otherError "boom"),
            StopEvent.msg ("Stop recording failed: " ++ "boom")] ∧
    countSleeps [StopEvent.call (StopResponse.otherError "boom"),
                 StopEvent.msg ("Stop recording failed: " ++ "boom")] =
      countNotReadyCalls [StopEvent.call (StopResponse.otherError "boom"),
                          StopEvent.msg ("Stop recording failed: " ++ "boom")] := by
  have h := stop_recording_retry 2 3 errStopSvc "boom"
    [StopEvent.call (StopResponse.otherError "boom"),
     StopEvent.msg ("Stop recording failed: " ++ "boom")] (by omega)
  exact ⟨h.1, h.2.1, h.2.2.1, h.2.2.2.1 rfl, h.2.2.2.2 (h.2.2.2.1 rfl)⟩

/-- C3: the create-edge command reports an error and submits nothing for any
argument count other than two; with two references, when either one resolves
to an id with no waypoint in the current graph it prints the not-found
message and submits nothing (a definite result, no exception, no retry); and
when both resolve it submits exactly one edge-creation request carrying the
transform computed from the two waypoint poses. -/
theorem create_new_edge_spec (mult : SE3 → SE3 → SE3) (inv : SE3 → SE3)
    (g : Graph) (args : List String) (a b : String) (wa wb : Waypoint) :
    (args.length ≠ 2 →
      create_new_edge mult inv g args =
        (["ERROR: Specify the two waypoints to connect (short code or annotation)."],
         [])) ∧
    (get_waypoint g (resolvedId g a) = none →
      create_new_edge mult inv g [a, b] =
        ([creatingMsg (resolvedId g a) (resolvedId g b),
          notFoundMsg (resolvedId g a)], [])) ∧
    (get_waypoint g (resolvedId g a) = some wa →
     get_waypoint g (resolvedId g b) = none →
      create_new_edge mult inv g [a, b] =
        ([creatingMsg (resolvedId g a) (resolvedId g b),
          notFoundMsg (resolvedId g b)], [])) ∧
    (get_waypoint g (resolvedId g a) = some wa →
     get_waypoint g (resolvedId g b) = some wb →
      create_new_edge mult inv g [a, b] =
        ([creatingMsg (resolvedId g a) (resolvedId g b),
          "edge transform = " ++ se3Repr (get_transform mult inv wa wb)],
         [Request.createEdge
            { from_waypoint := resolvedId g a, to_waypoint := resolvedId g b,
              snapshot_id := "",
              from_tform_to := get_transform mult inv wa wb }])) := by
  refine ⟨?_, ?_, ?_, ?_⟩
  · intro h
    match args with
    | [] => rfl
    | [_] => rfl
    | [_, _] => exact absurd rfl h
    | _ :: _ :: _ :: _ => rfl
  · intro hf
    simp only [resolvedId] at hf
    simp [create_new_edge, hf, resolvedId]
  · intro hf ht
    simp only [resolvedId] at hf ht
    simp [create_new_edge, hf, ht, resolvedId]
  · intro hf ht
    simp only [resolvedId] at hf ht
    simp [create_new_edge, hf, ht, resolvedId]

/-- Witness for C3: on the sample two-waypoint graph, a one-token call is
refused, an unresolvable reference yields the not-found result with no
request, and two annotation names yield exactly one create-edge request with
the computed transform. -/
theorem create_new_edge_spec_witness :
    create_new_edge multFst invId gAB ["one"] =
      (["ERROR: Specify the two waypoints to connect (short code or annotation)."],
       []) ∧
    create_new_edge multFst invId gAB ["nope", "two"] =
      ([creatingMsg "nope" "B", notFoundMsg "nope"], []) ∧
    create_new_edge multFst invId gAB ["one", "two"] =
      ([creatingMsg "A" "B",
        "edge transform = " ++ se3Repr (get_transform multFst invId wpA wpB)],
       [Request.createEdge
          { from_waypoint := "A", to_waypoint := "B", snapshot_id := "",
            from_tform_to := get_transform multFst invId wpA wpB }]) := by
  refine ⟨?_, ?_, ?_⟩
  · exact (create_new_edge_spec multFst invId gAB ["one"] "x" "y" wpA wpB).1 (by decide)
  · exact (create_new_edge_spec multFst invId gAB ["nope", "two"] "nope" "two" wpA wpB).2.1 rfl
  · exact (create_new_edge_spec multFst invId gAB ["one", "two"] "one" "two" wpA wpB).2.2.2 rfl rfl

/-- C4: evaluating the code at the failing input.  On every graph with fewer
than two waypoints the length check of line 303 succeeds, but the refusal
text exists only as the argument of the `self._add_message(...)` call on
line 304, and `_add_message` is defined nowhere on `RecordingInterface`, so
the operation raises `AttributeError` — the descriptive message the claim
(and the spec) promises is never printed, though, as the claim also states,
no create-edge request is issued, the exception firing before any
submission. -/
theorem create_loop_attribute_error (mult : SE3 → SE3 → SE3) (inv : SE3 → SE3)
    (sortChrono : Graph → List String) (g : Graph)
    (h : g.waypoints.length < 2) :
    create_loop mult inv sortChrono g =
      Except.error
        "AttributeError: RecordingInterface object has no attribute _add_message" := by
  unfold create_loop
  rw [if_pos h]

/-- Witness for C4: the sample one-waypoint graph makes the create-loop
command raise the attribute error, with no request submitted and no refusal
message printed. -/
theorem create_loop_attribute_error_witness :
    create_loop multFst invId sortNone gA =
      Except.error
        "AttributeError: RecordingInterface object has no attribute _add_message" :=
  create_loop_attribute_error multFst invId sortNone gA (by decide)

/-- The waypoint-snapshot loop writes one file per waypoint whose snapshot
download succeeds, regardless of the counters driving the progress prints. -/
theorem writesOf_downloadWaypointSnapshotsAux (dl : String)
    (svc : String → Except Unit WaypointSnapshot) (snap : Waypoint → WaypointSnapshot) :
    ∀ ws : List Waypoint,
      (∀ w ∈ ws, w.snapshot_id ≠ "" ∧ svc w.snapshot_id = Except.ok (snap w)) →
      ∀ total n, writesOf (downloadWaypointSnapshotsAux dl svc ws total n) =
        ws.map (fun w =>
          ((dl ++ "/waypoint_snapshots") ++ ("/" ++ w.snapshot_id),
           (snap w).serialized)) := by
  intro ws
  induction ws with
  | nil =>
    intro _ total n
    rfl
  | cons w ws ih =>
    intro h total n
    have hw := h w (List.mem_cons_self w ws)
    have hrest := ih (fun x hx => h x (List.mem_cons_of_mem w hx)) total (n + 1)
    simp [downloadWaypointSnapshotsAux, hw.1, hw.2, write_bytes, writesOf, hrest]
    simpa [writesOf] using hrest

/-- C5: for a graph whose waypoints all carry a non-empty snapshot id and a
service whose downloads all succeed, the snapshot-download pass performs
exactly one file write per waypoint, under the `waypoint_snapshots` directory
of the configured download path, named after the waypoint snapshot id and
with contents byte-identical to the serialized snapshot the service
returned. -/
theorem waypoint_snapshot_download_writes (dl : String)
    (svc : String → Except Unit WaypointSnapshot) (snap : Waypoint → WaypointSnapshot)
    (ws : List Waypoint)
    (h : ∀ w ∈ ws, w.snapshot_id ≠ "" ∧ svc w.snapshot_id = Except.ok (snap w)) :
    writesOf (download_and_write_waypoint_snapshots dl svc ws) =
      ws.map (fun w =>
        ((dl ++ "/waypoint_snapshots") ++ ("/" ++ w.snapshot_id),
         (snap w).serialized)) ∧
    (writesOf (download_and_write_waypoint_snapshots dl svc ws)).length = ws.length := by
  have h1 := writesOf_downloadWaypointSnapshotsAux dl svc snap ws h ws.length 0
  exact ⟨h1, by rw [download_and_write_waypoint_snapshots] at *; rw [h1, List.length_map]⟩

/-- Witness for C5: the sample two-waypoint graph with the constant snapshot
service yields exactly two writes with the returned bytes. -/
theorem waypoint_snapshot_download_writes_witness :
    writesOf (download_and_write_waypoint_snapshots "dl" svcSnap [wpA, wpB]) =
      [(("dl" ++ "/waypoint_snapshots") ++ ("/" ++ "sA"), [7]),
       (("dl" ++ "/waypoint_snapshots") ++ ("/" ++ "sB"), [7])] ∧
    (writesOf (download_and_write_waypoint_snapshots "dl" svcSnap [wpA, wpB])).length = 2 := by
  have h := waypoint_snapshot_download_writes "dl" svcSnap snapConst [wpA, wpB] ?_
  · exact ⟨h.1, h.2⟩
  · intro w hw
    simp only [List.mem_cons, List.not_mem_nil, or_false] at hw
    rcases hw with rfl | rfl
    · exact ⟨by decide, rfl⟩
    · exact ⟨by decide, rfl⟩

/-- C6: when the graph fetch yields nothing, the download-graph command
reports the condition with a single print and returns normally: no file
write, no directory creation and no snapshot download request follows for
that command. -/
theorem download_full_graph_empty (dl : String) (serializeGraph : Graph → List Nat)
    (wsvc : String → Except Unit WaypointSnapshot)
    (esvc : String → Except Unit EdgeSnapshot) :
    download_full_graph dl serializeGraph none wsvc esvc =
      [Event.info "Failed to download the graph."] ∧
    writesOf (download_full_graph dl serializeGraph none wsvc esvc) = [] ∧
    rpcsOf (download_full_graph dl serializeGraph none wsvc esvc) = [] :=
  ⟨rfl, rfl, rfl⟩

/-- C7 counterexample: the auto-close-loops reporter performs no status
check.  On a concrete response whose status is the error status it still
prints the success-style new-edge count, and its output is identical to the
output on the same response with the ok status — contradicting the claim
that both operations check a boolean success status on the response before
reporting. -/
theorem auto_close_loops_ignores_status :
    auto_close_loops { status := ProcStatus.statusError, new_subgraph_edges := [] } =
      ["Created 0 new edge(s)."] ∧
    auto_close_loops { status := ProcStatus.statusError, new_subgraph_edges := [] } =
      auto_close_loops { status := ProcStatus.statusOk, new_subgraph_edges := [] } :=
  ⟨rfl, rfl⟩

/-- C7 (amended): both operations are single synchronous request-response
calls whose reporting uses no further local decisions, but only
optimize-anchoring performs the boolean status check: it prints the
iteration count exactly on the ok status and an error dump otherwise, while
auto-close-loops prints the new-edge count unconditionally, with output
independent of the response status. -/
theorem map_processing_reporting (es : List Edge) (st : ProcStatus) (it : Nat) :
    auto_close_loops { status := st, new_subgraph_edges := es } =
      ["Created " ++ toString es.length ++ " new edge(s)."] ∧
    auto_close_loops { status := ProcStatus.statusError, new_subgraph_edges := es } =
      auto_close_loops { status := ProcStatus.statusOk, new_subgraph_edges := es } ∧
    optimize_anchoring { status := ProcStatus.statusOk, iteration := it } =
      ["Optimized anchoring after " ++ toString it ++ " iteration(s)."] ∧
    optimize_anchoring { status := ProcStatus.statusError, iteration := it } =
      ["Error optimizing " ++
        anchoringResponseRepr { status := ProcStatus.statusError, iteration := it }] ∧
    optimize_anchoring { status := ProcStatus.statusError, iteration := 0 } ≠
      optimize_anchoring { status := ProcStatus.statusOk, iteration := 0 } :=
  ⟨rfl, rfl, rfl, rfl, by decide⟩

/-- C8: the map-recording tool exits 0 when its loop completes and 1 when
the loop throws or authentication fails, as the claim states — but a fully
successful run of the power-cycling script also exits 1, because its `main`
has no return statement, so `if not main(): sys.exit(1)` fires on the
returned `None` even on success.  The last three conjuncts evaluate
`cycle_power.py` on a successful run, on a run whose two power calls raise
exactly the caught error types, and on an authentication failure: every one
exits 1, refuting the claimed success exit code 0 for that entry point. -/
theorem script_exit_codes (e : String) (run : Except String Unit) :
    scriptExitCode (record_main true (Except.ok ())) = 0 ∧
    scriptExitCode (record_main true (Except.error e)) = 1 ∧
    scriptExitCode (record_main false run) = 1 ∧
    scriptExitCode (cycle_power_main
      { authOk := true, powerCmd := PowerCmdOutcome.ok,
        feedback := FeedbackOutcome.ok }) = 1 ∧
    scriptExitCode (cycle_power_main
      { authOk := true, powerCmd := PowerCmdOutcome.leaseUseError e,
        feedback := FeedbackOutcome.invalidRequestError e }) = 1 ∧
    scriptExitCode (cycle_power_main
      { authOk := false, powerCmd := PowerCmdOutcome.ok,
        feedback := FeedbackOutcome.ok }) = 1 :=
  ⟨rfl, rfl, rfl, rfl, rfl, rfl⟩

/-- Concatenation of explicit strings is concatenation of their character
lists. -/
theorem mk_append (l m : List Char) :
    String.mk l ++ String.mk m = String.mk (l ++ m) :=
  rfl

/-- C9 counterexample: on the empty download path the constructor does raise
`IndexError`, but not before any remote call — the forced
`time_sync.wait_for_sync()` robot interaction of line 44 has already run when
the indexing on line 47 fails, so the interaction trace at the failure is
non-empty, contradicting the claim that construction fails before any remote
call. -/
theorem init_empty_path_after_time_sync :
    (recording_interface_init "").2 =
      Except.error "IndexError: string index out of range" ∧
    (recording_interface_init "").1 = [InitEvent.waitForSync] ∧
    ([InitEvent.waitForSync] : List InitEvent) ≠ [] :=
  ⟨rfl, rfl, by decide⟩

/-- C9 (amended): for every non-empty download path the constructor stores
the path obtained by removing one trailing slash if present and appending
exactly one slash and `downloaded_graph`; for the empty string the `s[-1]`
indexing raises `IndexError`, so construction fails after the forced
time-sync wait but before any service client is set up. -/
theorem recording_interface_init_path (p : String) (hp : p ≠ "") :
    (recording_interface_init p).2 = Except.ok (claimedDownloadPath p) ∧
    (recording_interface_init "").2 =
      Except.error "IndexError: string index out of range" ∧
    (recording_interface_init "").1 = [InitEvent.waitForSync] := by
  refine ⟨?_, rfl, rfl⟩
  have hl : p.data ≠ [] := by
    intro h
    exact hp (String.ext (by rw [h]))
  have hlast : p.data.getLast? = some (p.data.getLast hl) :=
    List.getLast?_eq_getLast_of_ne_nil hl
  by_cases hc : p.data.getLast hl = '/'
  · have hl2 : p.data.getLast? = some '/' := by rw [hlast, hc]
    have hdrop : p.data.dropLast ++ ['/'] = p.data := by
      have h0 := List.dropLast_append_getLast hl
      rw [hc] at h0
      exact h0
    simp only [recording_interface_init, pyLastChar, hl2, claimedDownloadPath, if_pos]
    refine congrArg Except.ok (String.ext ?_)
    show p.data ++ ("downloaded_graph" : String).data =
      (String.mk p.data.dropLast ++ "/downloaded_graph").data
    rw [show (String.mk p.data.dropLast ++ "/downloaded_graph").data =
          p.data.dropLast ++ ("/downloaded_graph" : String).data from rfl]
    rw [show ("/downloaded_graph" : String).data =
          '/' :: ("downloaded_graph" : String).data by decide]
    conv_lhs => rw [← hdrop]
    simp
  · have hl2 : p.data.getLast? = some (p.data.getLast hl) := hlast
    simp only [recording_interface_init, pyLastChar, hl2, claimedDownloadPath]
    rw [if_neg hc, if_neg (fun h => hc (Option.some.inj h))]

/-- Witness for C9: a path with and a path without a trailing slash both
store the same download path with exactly one separator. -/
theorem recording_interface_init_path_witness :
    (recording_interface_init "maps/").2 = Except.ok (claimedDownloadPath "maps/") ∧
    (recording_interface_init "maps").2 = Except.ok (claimedDownloadPath "maps") ∧
    claimedDownloadPath "maps/" = "maps/downloaded_graph" ∧
    claimedDownloadPath "maps" = "maps/downloaded_graph" :=
  ⟨(recording_interface_init_path "maps/" (by decide)).1,
   (recording_interface_init_path "maps" (by decide)).1,
   by decide, by decide⟩

/-- C10 counterexample: on the sample two-waypoint graph, a matching
waypoint name and a single clicked object, the capture operation raises
`KeyError` (the logging line integer-subscripts the click dict, which has
only string keys) and therefore attaches nothing and uploads nothing —
contradicting the claim that each clicked object annotation is attached to
the last waypoint and the graph then uploaded. -/
theorem capt_object_click_keyerror :
    capt_object (some "one") gAB [clickCup] = Except.error "KeyError: 0" :=
  rfl

/-- Rewriting the last element annotations to the value they already have
leaves the list unchanged. -/
theorem mapLast_set_getLast (a : Annots) :
    ∀ l : List Waypoint, (∀ w, l.getLast? = some w → w.annots = a) →
      mapLast (fun w => { w with annots := a }) l = l := by
  intro l
  induction l with
  | nil =>
    intro _
    rfl
  | cons x xs ih =>
    intro h
    cases xs with
    | nil =>
      have hx : x.annots = a := h x rfl
      simp [mapLast, ← hx]
    | cons y ys =>
      have htail := ih (fun w hw => h w (by rw [List.getLast?_cons_cons]; exact hw))
      simp [mapLast, htail]

/-- Rewriting only the last element leaves the dropLast prefix unchanged. -/
theorem mapLast_dropLast {α : Type} (f : α → α) :
    ∀ l : List α, (mapLast f l).dropLast = l.dropLast := by
  intro l
  induction l with
  | nil => rfl
  | cons x xs ih =>
    cases xs with
    | nil => rfl
    | cons y ys =>
      cases hM : mapLast f (y :: ys) with
      | nil => cases ys <;> simp [mapLast] at hM
      | cons m ms =>
        show (x :: mapLast f (y :: ys)).dropLast = x :: (y :: ys).dropLast
        rw [hM, List.dropLast_cons₂, ← hM, ih]

/-- C10 (amended): whenever at least one object was clicked, the capture
operation raises `KeyError` on the logging line before attaching any
annotation or uploading, for every graph and every waypoint name; its result
never depends on the waypoint name argument (the `curr_waypoint` computed
from it is dead); with no clicks it uploads the graph unchanged; and a
missing name is refused without an upload.  The attachment code that the
`KeyError` cuts off targets the leaked loop variable — the last waypoint —
as the last conjunct shows on the loop state itself: the built graph changes
no waypoint except the last one. -/
theorem capt_object_behavior (name n1 n2 : String) (g : Graph) (c : Click)
    (cs clicks : List Click) (a : Annots) :
    capt_object (some name) g (c :: cs) = Except.error "KeyError: 0" ∧
    capt_object (some n1) g clicks = capt_object (some n2) g clicks ∧
    capt_object (some name) g [] =
      Except.ok (["Successfully added objects."], some g) ∧
    capt_object none g clicks = Except.ok (["waypoint name not input"], none) ∧
    (mapLast (fun w => { w with annots := a }) g.waypoints).dropLast =
      g.waypoints.dropLast := by
  refine ⟨rfl, rfl, ?_, rfl, ?_⟩
  · have key : mapLast (fun w => { w with annots := lastAnnots g }) g.waypoints
        = g.waypoints := by
      apply mapLast_set_getLast
      intro w hw
      rw [lastAnnots, hw]
      rfl
    show Except.ok (["Successfully added objects."],
        some { g with
          waypoints := mapLast (fun w => { w with annots := lastAnnots g }) g.waypoints }) =
      Except.ok (["Successfully added objects."], some g)
    rw [key]
  · exact mapLast_dropLast _ g.waypoints

end Spot
